import Mathlib

/-!
# A verification development for the kanako incremental analysis pipeline

This file contains a shallow embedding, in Lean 4, of the parts of the
kanako (bakana) JavaScript code base that the specification talks about:

* the serialization helper `dump_internal`/`dumpList` from `src/dump/List.js`;
* the feature-type splitting short-circuit `is_subset_noop` from
  `src/readers/utils/features.js`;
* the marker-selection logic of `FeatureSetManager.computeEnrichment` from
  the feature-set enrichment step;
* the `CellFilteringState` step (discard-vector merging, filtered matrix and
  block computation, serialization) from `src/analysis.js`;
* the `CrisprPcaState` step from `src/steps/crispr_pca.js`;
* the no-op guard of `CellLabellingState.compute` from
  `src/steps/cell_labelling.js`;
* a reduced model of the `runAnalysis`/`loadAnalysis` orchestrator from
  `src/analysis.js`, including the clustering steps.

JavaScript-specific behaviour (strict equality across types, references to
undeclared variables throwing `ReferenceError`, in-place mutation up to the
point of a `throw`) is modelled explicitly, as noted at each definition.
Off-heap buffers are modelled as records with an identity, a payload and an
`owner` field (`none` for an owned allocation, `some id` for a non-owning
view over the buffer with identity `id`), mirroring the `WasmArray`
ownership discipline used by the code.
-/

/-! ## JavaScript values and errors for `src/dump/List.js` -/

/-- Errors that the embedded JavaScript code can throw.  Reading an
undeclared variable in a module (strict mode) throws a `ReferenceError`
naming that variable; we record which undeclared variable was read. -/
inductive JsErr where
  /-- `ReferenceError`: the undeclared variable `v` was read. -/
  | refV : JsErr
  /-- `ReferenceError`: the undeclared variable `k` was read while the
  fallback branch builds its error message. -/
  | refK : JsErr
  deriving DecidableEq, Repr

/-- The JavaScript values that can reach `dump_internal`.  Typed arrays are
omitted: they are not needed for the properties below (and in the source
they would be caught by the `instanceof Object` branch anyway, which comes
before the typed-array branches). -/
inductive JsVal where
  | vnull : JsVal
  | vundefined : JsVal
  | vbool : Bool → JsVal
  | vnum : Int → JsVal
  | vstr : String → JsVal
  | varr : List JsVal → JsVal
  | vobj : List (String × JsVal) → JsVal

/-- The serialized output shape produced by `dump_internal`:
`{type, values}` records, plus the `{metadata, contents}` wrapper that
`dumpList` puts around its result (the `path` stored in the wrapper is kept,
the gzip compression is not modelled). -/
inductive DumpEntry where
  | listVals : List DumpEntry → DumpEntry
  | objVals : List String → List DumpEntry → DumpEntry
  | wrapped : String → DumpEntry → DumpEntry
  | nums : List Int → DumpEntry
  | strs : List String → DumpEntry
  | bools : List Bool → DumpEntry

/-- Whether a value is a JavaScript string (`typeof e === "string"`). -/
def JsVal.isStr : JsVal → Bool
  | .vstr _ => true
  | _ => false

/-- The `all_strings` flag of `dump_internal`: it stays `true` unless some
non-null element has `typeof e !== "string"`. -/
def all_strings_flag (l : List JsVal) : Bool :=
  l.all fun e => match e with
    | .vnull => true
    | .vstr _ => true
    | _ => false

/-- The `all_bools` flag of `dump_internal`: because the check
`typeof e !== "boolean"` sits in the `else` branch of the string test, it is
only ever reached for string elements, so the flag stays `true` exactly when
no non-null element is a string. -/
def all_bools_flag (l : List JsVal) : Bool :=
  l.all fun e => match e with
    | .vnull => true
    | .vstr _ => false
    | _ => true

/-- `path + "/simple.json.gz"` as computed by `dumpList`; when `dumpList`
is called with a single argument (as in the `instanceof Object` branch of
`dump_internal`), `path` is `undefined` and JavaScript string concatenation
yields `"undefined/simple.json.gz"`. -/
def dump_path_concat : Option String → String
  | some p => p ++ "/simple.json.gz"
  | none => "undefined" ++ "/simple.json.gz"

mutual

/-- Shallow embedding of `dump_internal` from `src/dump/List.js`.
Branches are in source order.  In the non-empty `Array` case all three
sub-branches read the undeclared variable `v` (`output.values = v;` in the
two fast paths, `for (const e of v)` in the generic path), so each throws a
`ReferenceError` before producing anything.  The final fallback branch
throws while *building its message*, because the message references the
undeclared variable `k`; `null` and `undefined` fall through to it (neither
satisfies any `instanceof` test nor the `typeof` tests). -/
def dump_internal : JsVal → Except JsErr DumpEntry
  | .varr l =>
    if l.isEmpty then
      .ok (.listVals [])
    else if all_strings_flag l then
      .error .refV
    else if all_bools_flag l then
      .error .refV
    else
      .error .refV
  | .vobj kvs =>
    match dump_internal_entries kvs with
    | .ok vals => .ok (.objVals (kvs.map Prod.fst) vals)
    | .error e => .error e
  | .vnum n => .ok (.nums [n])
  | .vstr s => .ok (.strs [s])
  | .vbool b => .ok (.bools [b])
  | .vnull => .error .refK
  | .vundefined => .error .refK
termination_by x => sizeOf x
decreasing_by all_goals simp_wf

/-- The loop body of the `instanceof Object` branch: each entry value is
passed through `dumpList(v)` (with an undefined `path`), not through
`dump_internal` directly. -/
def dump_internal_entries : List (String × JsVal) → Except JsErr (List DumpEntry)
  | [] => .ok []
  | (_, v) :: rest =>
    match dumpList v none with
    | .error e => .error e
    | .ok d =>
      match dump_internal_entries rest with
      | .error e => .error e
      | .ok ds => .ok (d :: ds)
termination_by l => sizeOf l
decreasing_by
  all_goals simp_wf
  all_goals omega

/-- Shallow embedding of `dumpList` from `src/dump/List.js`: serializes via
`dump_internal` and wraps the result with the metadata path.  Errors from
`dump_internal` propagate to the caller. -/
def dumpList (x : JsVal) (path : Option String) : Except JsErr DumpEntry :=
  match dump_internal x with
  | .ok inner => .ok (.wrapped (dump_path_concat path) inner)
  | .error e => .error e
termination_by sizeOf x + 1
decreasing_by all_goals simp_wf

end

/-! ## Feature-type splitting, `src/readers/utils/features.js` -/

/-- A JavaScript value indexed with `[]` and carrying a `length`, as consumed
by `is_subset_noop`: either an integer array (what the helper is written
for) or a string (what the call site in `splitScranMatrixAndFeatures`
actually passes, namely `type_keys[0]`). -/
inductive JsIndexable where
  | ints : List Int → JsIndexable
  | str : String → JsIndexable
  deriving DecidableEq, Repr

/-- `indices.length`. -/
def JsIndexable.jsLength : JsIndexable → Nat
  | .ints l => l.length
  | .str s => s.length

/-- Whether `i !== indices[i]` is *false*, i.e. whether the element at
position `i` is strictly equal to the number `i`.  For an integer array this
compares the numbers; for a string, `indices[i]` is a one-character string
and a string is never strictly equal (`===`) to a number. -/
def JsIndexable.strictEqAt : JsIndexable → Nat → Bool
  | .ints l, i => l.getD i 0 == (i : Int)
  | .str _, _ => false

/-- Shallow embedding of `is_subset_noop(indices, full_length)` from
`src/readers/utils/features.js`: `false` when the lengths differ, otherwise
`false` as soon as some position `i` has `i !== indices[i]` (the loop's
early return is equivalent to `List.all`). -/
def is_subset_noop (indices : JsIndexable) (full_length : Nat) : Bool :=
  if indices.jsLength != full_length then
    false
  else
    (List.range full_length).all fun i => indices.strictEqAt i

/-- The `skip_subset` value computed in `splitScranMatrixAndFeatures`
(lines 62-63): the call passes `type_keys[0]` — the *first key string* of
`by_type` — rather than the index array `by_type[type_keys[0]]`. -/
def splitScran_skip_subset (type_keys : List String) (nrows : Nat) : Bool :=
  is_subset_noop (.str (type_keys.headD "")) nrows

/-- The branch decision at line 65 of `splitScranMatrixAndFeatures`:
`true` means the splitting path runs (`scran.splitRows`, a row-subsetting
copy), `false` means the short-circuit renames the existing matrix. -/
def splitScran_takes_split_branch (type_keys : List String) (nrows : Nat) : Bool :=
  decide (type_keys.length > 1) || !(splitScran_skip_subset type_keys nrows)

/-! ## Feature-set enrichment marker selection (`FeatureSetManager.computeEnrichment`) -/

/-- One entry of the `overlaps` array: a feature set with its overlap count
and enrichment p-value. -/
structure SetOverlap where
  id : Nat
  count : Nat
  pvalue : Rat
  deriving DecidableEq, Repr

/-- The `delta_detected` effect name is renamed before any other use. -/
def normalize_effect (effect : String) : String :=
  if effect == "delta_detected" then "deltaDetected" else effect

/-- Shallow embedding of the marker-selection part of
`FeatureSetManager.computeEnrichment`.  `stats` holds the per-gene statistic
for the requested effect/summary pair (produced by the external marker
results object), `universe` the mapped universe of row indices, and
`threshold` the value computed by the external `scran.computeTopThreshold`
on the sliced statistics for `top_markers`.  Returns the positions into the
universe of the selected genes, in order. -/
def computeEnrichment_selected (effect : String) (threshold : Rat)
    (stats : List Rat) (univ : List Nat) : List Nat :=
  let effect := normalize_effect effect
  -- Avoid picking down-regulated genes in the marker set.
  let min_threshold : Rat := if effect == "auc" then 1/2 else 0
  -- Larger is better except for min_rank.
  let use_largest := effect != "min_rank"
  let curstats := univ.map fun g => stats.getD g 0
  if use_largest then
    let t := if threshold < min_threshold then min_threshold else threshold
    (List.range curstats.length).filter fun i => t ≤ curstats.getD i 0
  else
    (List.range curstats.length).filter fun i => curstats.getD i 0 ≤ threshold

/-- The universe row indices of the selected genes (what the `add` callback
collects the set memberships for). -/
def computeEnrichment_marker_genes (effect : String) (threshold : Rat)
    (stats : List Rat) (univ : List Nat) : List Nat :=
  (computeEnrichment_selected effect threshold stats univ).map fun i =>
    univ.getD i 0

/-- The selection rule exactly as the specification sentence words it, for
comparison against `computeEnrichment_selected`: smaller-is-better with
`stat ≤ threshold` for `"min_rank"`; otherwise larger-is-better with
`stat ≥ threshold`, the threshold being floored at 0.5 *only* when the
effect size is `"auc"`. -/
def spec_selected_literal (effect : String) (threshold : Rat)
    (stats : List Rat) (univ : List Nat) : List Nat :=
  let curstats := univ.map fun g => stats.getD g 0
  if effect == "min_rank" then
    (List.range curstats.length).filter fun i => curstats.getD i 0 ≤ threshold
  else
    let t := if effect == "auc" then
        (if threshold < 1/2 then (1 : Rat)/2 else threshold)
      else threshold
    (List.range curstats.length).filter fun i => t ≤ curstats.getD i 0

/-- `overlaps.sort((a, b) => a.pvalue - b.pvalue)`: the per-set results are
sorted in ascending order of p-value before being returned. -/
def sort_overlaps (overlaps : List SetOverlap) : List SetOverlap :=
  overlaps.mergeSort fun a b => a.pvalue ≤ b.pvalue

/-! ## Wasm buffers with explicit ownership -/

/-- An off-heap array: `owner = none` for an owned allocation, and
`owner = some i` for a non-owning view created over the buffer whose
identity is `i` (the `WasmArray.view()` discipline). -/
structure WBuf where
  id : Nat
  data : List Nat
  owner : Option Nat
  deriving DecidableEq, Repr

/-- `buf.view()`: a non-owning view sharing the payload of `buf`. -/
def WBuf.view (b : WBuf) : WBuf := { b with owner := some b.id }

/-! ## Cell filtering (`CellFilteringState` in src/analysis.js) -/

/-- What `CellFilteringState` reads from one per-modality QC state:
its validity, its `changed` flag and its per-cell discard vector. -/
structure QcUpstream where
  valid : Bool
  changed : Bool
  discards : WBuf
  deriving DecidableEq, Repr

/-- The `qc_states` record, in RNA, ADT, CRISPR key order. -/
structure QcTriple where
  rna : QcUpstream
  adt : QcUpstream
  crispr : QcUpstream
  deriving DecidableEq, Repr

/-- The per-modality `in_use` flags passed to `compute`. -/
structure UseFlags where
  use_rna : Bool
  use_adt : Bool
  use_crispr : Bool
  deriving DecidableEq, Repr

/-- `find_usable_upstream_states`: the valid QC states (in RNA, ADT, CRISPR
order) whose modality is switched on. -/
def find_usable_upstream_states (qc : QcTriple) (u : UseFlags) : List QcUpstream :=
  (if qc.rna.valid && u.use_rna then [qc.rna] else []) ++
  (if qc.adt.valid && u.use_adt then [qc.adt] else []) ++
  (if qc.crispr.valid && u.use_crispr then [qc.crispr] else [])

/-- The modalities that are in use *per the `use_*` parameters alone*,
ignoring validity; this is the vocabulary in which the specification states
the discard-merge property. -/
def in_use_states (qc : QcTriple) (u : UseFlags) : List QcUpstream :=
  (if u.use_rna then [qc.rna] else []) ++
  (if u.use_adt then [qc.adt] else []) ++
  (if u.use_crispr then [qc.crispr] else [])

/-- The stored parameter record of `CellFilteringState`; fields are absent
(`none`) before the first `compute` call. -/
structure FilterParams where
  use_rna : Option Bool
  use_adt : Option Bool
  use_crispr : Option Bool
  deriving DecidableEq, Repr

/-- One entry of the filtered `MultiMatrix`: the source matrix it came from
and, when a combined discard vector exists, the discard mask it was filtered
with (`scran.filterCells`); `filteredBy = none` means the source was cloned
unfiltered. -/
structure FiltMat where
  modality : String
  src : Nat
  filteredBy : Option (List Nat)
  deriving DecidableEq, Repr

/-- What `CellFilteringState` reads from the Inputs step: the `changed`
flag, the available count matrices (modality name and matrix identity), and
the optional per-cell block assignment. -/
structure InputsUpstream where
  changed : Bool
  matrices : List (String × Nat)
  block : Option WBuf
  deriving DecidableEq, Repr

/-- The mutable state of `CellFilteringState`: stored parameters, the cache
(`discard_buffer`, `matrix`, `block_buffer`) and the `changed` flag.
`next_id` is the identity counter used when an owned buffer is allocated. -/
structure FilterState where
  params : FilterParams
  discard_buffer : Option WBuf
  matrix : Option (List FiltMat)
  block_buffer : Option WBuf
  changed : Bool
  next_id : Nat
  deriving DecidableEq, Repr

/-- `#raw_compute_matrix`: the old `MultiMatrix` is freed and rebuilt by
filtering each available input matrix through the combined discard vector
(`scran.filterCells`), or cloning it when no discard vector exists. -/
def raw_compute_matrix (inputs : InputsUpstream) (disc : Option WBuf) : List FiltMat :=
  inputs.matrices.map fun m =>
    match disc with
    | some d => ⟨m.1, m.2, some d.data⟩
    | none => ⟨m.1, m.2, none⟩

/-- `#raw_compute_block`: with a discard vector, a freshly allocated buffer
holding the block entries of the retained cells (`scran.filterBlock`);
without one, a view on the inputs block; `none` when there is no block.
Returns the new cache entry and the next fresh buffer id. -/
def raw_compute_block (inputs : InputsUpstream) (disc : Option WBuf) (nid : Nat) :
    Option WBuf × Nat :=
  match inputs.block with
  | some block =>
    match disc with
    | some d =>
      let vals := ((block.data.zip d.data).filter fun p => p.2 == 0).map Prod.fst
      (some ⟨nid, vals, none⟩, nid + 1)
    | none => (some block.view, nid)
  | none => (none, nid)

/-- The merged discard payload: a zero-filled buffer of the first usable
vector's length into which every usable upstream vector is OR-ed
(`disc_arr[i] |= y`; positions beyond a vector's own length receive no
contribution from it, and writes beyond the buffer's length are dropped,
as for a typed array). -/
def merged_discards (to_use : List QcUpstream) (n : Nat) : List Nat :=
  (List.range n).map fun i =>
    to_use.foldl (fun acc u => acc ||| u.discards.data.getD i 0) 0

/-- The parameter comparison in `CellFilteringState.compute`: field-by-field
strict inequality against the stored record (`undefined` stored fields
compare unequal to any boolean, so a first run always differs). -/
def filter_params_differ (st : FilterState) (use_rna use_adt use_crispr : Bool) : Bool :=
  st.params.use_rna != some use_rna || st.params.use_adt != some use_adt ||
    st.params.use_crispr != some use_crispr

/-- The `changed` flag as rebuilt from scratch by `CellFilteringState.compute`:
inputs check, parameter comparison, then — only when still false — a scan of
the usable upstream states (the early-`break` loop is the `List.any`). -/
def filter_changed_now (st : FilterState) (inputs : InputsUpstream) (qc : QcTriple)
    (use_rna use_adt use_crispr : Bool) : Bool :=
  if inputs.changed || filter_params_differ st use_rna use_adt use_crispr then true
  else (find_usable_upstream_states qc ⟨use_rna, use_adt, use_crispr⟩).any (·.changed)

/-- Shallow embedding of `CellFilteringState.compute(use_rna, use_adt,
use_crispr)`.  When a recompute is triggered: more than one usable modality
OR-merges into a fresh owned buffer, exactly one aliases that modality's
vector as a view, and zero usable modalities delete the cache entry; the
filtered matrix and block are then rebuilt.  Otherwise the call returns at
once with `changed = false` and the cache untouched. -/
def CellFilteringState.compute (st : FilterState) (inputs : InputsUpstream)
    (qc : QcTriple) (use_rna use_adt use_crispr : Bool) : FilterState :=
  let paramsDiffer := filter_params_differ st use_rna use_adt use_crispr
  let params : FilterParams :=
    if paramsDiffer then ⟨some use_rna, some use_adt, some use_crispr⟩ else st.params
  let to_use := find_usable_upstream_states qc ⟨use_rna, use_adt, use_crispr⟩
  let changed := filter_changed_now st inputs qc use_rna use_adt use_crispr
  if changed then
    match to_use with
    | [] =>
      -- deleting the entry so that serialization behaves correctly
      let disc : Option WBuf := none
      let rb := raw_compute_block inputs disc st.next_id
      ⟨params, disc, some (raw_compute_matrix inputs disc), rb.1, true, rb.2⟩
    | first :: rest =>
      if rest.length > 0 then
        -- a discard signal in any modality causes the cell to be removed
        let disc : Option WBuf :=
          some ⟨st.next_id, merged_discards (first :: rest) first.discards.data.length, none⟩
        let rb := raw_compute_block inputs disc (st.next_id + 1)
        ⟨params, disc, some (raw_compute_matrix inputs disc), rb.1, true, rb.2⟩
      else
        -- only one valid modality: create a view on it to avoid duplication
        let disc : Option WBuf := some first.discards.view
        let rb := raw_compute_block inputs disc st.next_id
        ⟨params, disc, some (raw_compute_matrix inputs disc), rb.1, true, rb.2⟩
  else
    { st with params := params, changed := false }

/-- The `results/discards` dataset written by `CellFilteringState.serialize`:
written iff a combined discard vector is present in the cache *and* it is an
owned buffer rather than a view (`disc.owner === null`). -/
def CellFilteringState.serialize_discards (st : FilterState) : Option (List Nat) :=
  match st.discard_buffer with
  | some d => if d.owner = none then some d.data else none
  | none => none

/-! ## CRISPR PCA (`CrisprPcaState`, src/steps/crispr_pca.js) -/

/-- The cached `RunPCAResults` object.  The external `scran.runPCA` call is
modelled as recording the arguments it was invoked with (the normalized
matrix version, the requested number of PCs, the blocking method and the
filtered block); `alive` tracks whether `utils.freeCache` has released the
underlying wasm memory (a freed object can still be referenced from the
cache). -/
structure PcaResultBuf where
  mat_version : Nat
  num_pcs : Nat
  block_method : String
  block : Option (List Nat)
  alive : Bool
  deriving DecidableEq, Repr

/-- The stored parameter record of `CrisprPcaState`; fields are absent
(`undefined`) before the first `compute`. -/
structure CrisprPcaParams where
  num_pcs : Option Nat
  block_method : Option String
  deriving DecidableEq, Repr

/-- The mutable state of `CrisprPcaState`. -/
structure CrisprPcaStateM where
  params : CrisprPcaParams
  pcs : Option PcaResultBuf
  changed : Bool
  deriving DecidableEq, Repr

/-- What `CrisprPcaState` reads from its upstream states: the CRISPR
normalization state's `changed` and `valid()` flags and the version of its
normalized matrix, and the cell-filtering state's filtered block. -/
structure CrisprPcaUpstream where
  norm_changed : Bool
  norm_valid : Bool
  norm_mat_version : Nat
  filtered_block : Option (List Nat)
  deriving DecidableEq, Repr

/-- Errors thrown by external calls invoked during a recompute. -/
inductive StepErr where
  | runPCAFailed : StepErr
  | filterCellsFailed : StepErr
  deriving DecidableEq, Repr

/-- Shallow embedding of `CrisprPcaState.compute(parameters)`.  Because a
JavaScript method mutates its object up to the point where an exception is
thrown, the result is the post-call state *paired with* the propagated
error, if any.  `runPCAOk` injects the outcome of the external
`scran.runPCA` call.  Source order: `this.changed = false`; the
recompute test (`norm.changed` or either parameter differing); inside it,
only when `valid()`, free the old PCs and run the PCA (so on failure the
cache still references the freed object and the parameter record is *not*
updated, as the assignments after the `if` are never reached). -/
def CrisprPcaState.compute (st : CrisprPcaStateM) (up : CrisprPcaUpstream)
    (runPCAOk : Bool) (num_pcs : Nat) (block_method : String) :
    CrisprPcaStateM × Option StepErr :=
  let st := { st with changed := false }
  if up.norm_changed || st.params.num_pcs != some num_pcs ||
      st.params.block_method != some block_method then
    if up.norm_valid then
      -- utils.freeCache(this.#cache.pcs); this.#cache.pcs = scran.runPCA(...)
      let freed := st.pcs.map fun b => { b with alive := false }
      if runPCAOk then
        ({ st with
            pcs := some ⟨up.norm_mat_version, num_pcs, block_method, up.filtered_block, true⟩,
            changed := true,
            params := ⟨some num_pcs, some block_method⟩ }, none)
      else
        ({ st with pcs := freed }, some .runPCAFailed)
    else
      ({ st with params := ⟨some num_pcs, some block_method⟩ }, none)
  else
    (st, none)

/-! ## Failure injection for `#raw_compute_matrix` (src/analysis.js) -/

/-- `#raw_compute_matrix` with failure injection: the old matrix is freed
and replaced by an empty `MultiMatrix` *before* the loop over the available
input matrices, and each `scran.filterCells`/`clone` result is added as the
loop goes; if the external call for the `k`-th matrix throws (`failAt =
some k`), the exception propagates with the cache holding the partially
filled replacement.  `raw_compute_matrix` above is the `failAt = none`
instance. -/
def raw_compute_matrix_fallible (inputs : InputsUpstream) (disc : Option WBuf)
    (failAt : Option Nat) : List FiltMat × Option StepErr :=
  match failAt with
  | none => (raw_compute_matrix inputs disc, none)
  | some k =>
    if k < inputs.matrices.length then
      ((raw_compute_matrix inputs disc).take k, some .filterCellsFailed)
    else
      (raw_compute_matrix inputs disc, none)

/-! ## Cell labelling (`CellLabellingState`, src/steps/cell_labelling.js) -/

/-- The stored parameter record of `CellLabellingState`; the reference
lists are absent (`undefined`) before the first `compute`. -/
structure LabelParams where
  human_references : Option (List String)
  mouse_references : Option (List String)
  deriving DecidableEq, Repr

/-- `compare_arrays(x, y)` with `y` the stored (possibly undefined)
parameter: `false` when `y` is undefined, otherwise length equality plus
element-wise equality. -/
def compare_arrays (x : List String) (y : Option (List String)) : Bool :=
  match y with
  | none => false
  | some ys => x == ys

/-- The cache of `CellLabellingState` after a recompute, summarised as a
record of what the external classification pipeline was driven with: the
feature-set version chosen from the inputs and the reference names used.
(The body of the recompute path only orchestrates downloads and external
scran.js calls, which are opaque collaborators.) -/
structure LabelCache where
  features_version : Nat
  used_human : List String
  used_mouse : List String
  deriving DecidableEq, Repr

/-- The mutable state of `CellLabellingState`. -/
structure CellLabellingStateM where
  params : LabelParams
  cache : Option LabelCache
  changed : Bool
  deriving DecidableEq, Repr

/-- Shallow embedding of `CellLabellingState.compute(human_references,
mouse_references)`.  The no-op guard is modelled exactly: when neither the
inputs nor the marker step changed and both reference lists compare equal
to the stored parameters, `changed` is set to `false` and the method
returns at once, leaving the parameter record and every cached object
untouched.  Otherwise the classification pipeline runs, the cache is
replaced, owned copies of the reference lists are stored, and `changed`
is set to `true`. -/
def CellLabellingState.compute (st : CellLabellingStateM)
    (inputs_changed markers_changed : Bool) (features_version : Nat)
    (human_references mouse_references : List String) : CellLabellingStateM :=
  if !inputs_changed && !markers_changed &&
      compare_arrays human_references st.params.human_references &&
      compare_arrays mouse_references st.params.mouse_references then
    { st with changed := false }
  else
    { params := ⟨some human_references, some mouse_references⟩,
      cache := some ⟨features_version, human_references, mouse_references⟩,
      changed := true }

/-! ## Normalization (`NormalizationState` in src/analysis.js) -/

/-- The mutable state of the RNA `NormalizationState`: the cache holds the
log-normalized matrix, modelled as a record of the filtered matrices the
external `scran.logNormCounts` call was driven with. -/
structure NormalizationStateM where
  matrix : Option (List FiltMat)
  changed : Bool
  deriving DecidableEq, Repr

/-- Shallow embedding of `NormalizationState.compute()`: `changed` is
rebuilt as the disjunction of the QC and filtering upstream flags, and on a
change the matrix is recomputed from the current filtered matrix
(`#raw_compute`). -/
def NormalizationState.compute (st : NormalizationStateM)
    (qc_changed filter_changed : Bool) (filteredMats : List FiltMat) :
    NormalizationStateM :=
  let changed := qc_changed || filter_changed
  if changed then
    { matrix := some filteredMats, changed := true }
  else
    { st with changed := false }

/-! ## A reduced model of the analysis pipeline (src/analysis.js)

The orchestrator logic below — the step sequence of `runAnalysis`, the
one-shot `_loaded` tripwire, the `method == "kmeans"` / `method ==
"snn_graph"` toggles passed to the clustering steps, and `loadAnalysis`
adding the tripwire — is embedded from `src/analysis.js`.  The step states
whose own sources are not part of the repository snapshot (Inputs, the QC
steps, the PCA/embedding steps, the two clustering steps and
`ChooseClusteringState`) are modelled from the spec, as marked on each
definition. -/

/-- Modelled from the spec: the `InputsState` source is absent from `src/`.
Per §4.3, `runAnalysis` "Loads/refreshes the Inputs step first" and
`datasets` may be `null` "if the input datasets were already loaded and
cached", in which case (with unchanged parameters) the step reports no
change; loading a different dataset or changing a parameter reports a
change. -/
structure InputsStateM where
  dataset : Option Nat
  params : Option Nat
  changed : Bool
  deriving DecidableEq, Repr

/-- Modelled from the spec: `InputsState.compute(datasets, params)`. -/
def InputsState.compute (st : InputsStateM) (datasets : Option Nat) (p : Nat) :
    InputsStateM :=
  let datasetChanged :=
    match datasets with
    | some d => st.dataset != some d
    | none => false
  { dataset := match datasets with | some d => some d | none => st.dataset,
    params := some p,
    changed := datasetChanged || st.params != some p }

/-- Modelled from the spec: the per-modality QC step sources are absent
from `src/`.  Per §4.2 a step recomputes iff its upstream changed, a
parameter differs from the stored record, or it has never computed; its
discard vector is owned by the step and left in place otherwise. -/
structure QcStateM where
  params : Option Nat
  valid : Bool
  discards : WBuf
  changed : Bool
  deriving DecidableEq, Repr

/-- Modelled from the spec: a QC step's `compute`. -/
def QualityControlStep.compute (st : QcStateM) (inputs_changed : Bool) (p : Nat) :
    QcStateM :=
  if inputs_changed || st.params != some p then
    { st with params := some p, changed := true }
  else
    { st with changed := false }

/-- Modelled from the spec: the PCA / embedding step sources (other than
`crispr_pca.js`) are absent from `src/`.  Per §4.2: recompute iff upstream
changed, a parameter differs, or first run; the cache records what it was
computed from. -/
structure SimpleStepM where
  params : Option Nat
  cache : Option Nat
  changed : Bool
  deriving DecidableEq, Repr

/-- Modelled from the spec: a generic downstream step's `compute`. -/
def SimpleStep.compute (st : SimpleStepM) (upstream_changed : Bool) (p : Nat) :
    SimpleStepM :=
  if upstream_changed || st.params != some p then
    { params := some p, cache := some p, changed := true }
  else
    { st with changed := false }

/-- Modelled from the spec: the `kmeans_cluster`/`snn_graph_cluster` step
sources are absent from `src/`.  Per §4.3, the step not matching the chosen
method "is still computed only if explicitly requested by its own toggle —
but both are always attempted", results "persist once computed,
independently invalidated": an invalidation (upstream change or parameter
change) with the toggle off wipes the results without recomputing them,
and a toggle turned on with no cached results triggers a compute even when
nothing else changed. -/
structure ClusterStateM where
  params : Option Nat
  clusters : Option Nat
  changed : Bool
  deriving DecidableEq, Repr

/-- Modelled from the spec: a clustering step's `compute(run_me, params)`
(the orchestrator passes `method == "kmeans"` resp. `method == "snn_graph"`
as `run_me`). -/
def ClusterStep.compute (st : ClusterStateM) (upstream_changed run_me : Bool)
    (p : Nat) : ClusterStateM :=
  if upstream_changed || st.params != some p || (run_me && st.clusters.isNone) then
    { params := some p,
      clusters := if run_me then some p else none,
      changed := true }
  else
    { st with changed := false }

/-- The clustering method chosen in the `choose_clustering` parameters. -/
inductive ClusterMethod where
  | snn_graph : ClusterMethod
  | kmeans : ClusterMethod
  deriving DecidableEq, Repr

/-- Modelled from the spec: the `ChooseClusteringState` source is absent
from `src/`.  Per §8, changing an inactive method's parameters must leave
`choose_clustering` unchanged, while it reports a change when the method
itself switches or when the active method's step changed. -/
structure ChooseClusteringStateM where
  method : Option ClusterMethod
  changed : Bool
  deriving DecidableEq, Repr

/-- Modelled from the spec: `ChooseClusteringState.compute(parameters)`. -/
def ChooseClusteringStep.compute (st : ChooseClusteringStateM)
    (snn_changed kmeans_changed : Bool) (method : ClusterMethod) :
    ChooseClusteringStateM :=
  let changed :=
    if st.method == some method then
      match method with
      | .snn_graph => snn_changed
      | .kmeans => kmeans_changed
    else true
  { method := some method, changed := changed }

/-- The parameter object handed to the reduced `runAnalysis`. -/
structure MiniParams where
  inputs_p : Nat
  qc_p : Nat
  use_rna : Bool
  use_adt : Bool
  use_crispr : Bool
  pca_p : Nat
  embed_p : Nat
  kmeans_k : Nat
  snn_resolution : Nat
  method : ClusterMethod
  deriving DecidableEq, Repr

/-- The reduced analysis state: the `_loaded` tripwire plus one
representative chain of step states (Inputs → RNA QC → CellFiltering →
Normalization → PCA → embedding, and PCA → {k-means, SNN} →
ChooseClustering). -/
structure MiniState where
  load_flag : Bool
  inputs : InputsStateM
  qc : QcStateM
  filter : FilterState
  norm : NormalizationStateM
  pca : SimpleStepM
  embed : SimpleStepM
  kmeans : ClusterStateM
  snn : ClusterStateM
  choice : ChooseClusteringStateM
  deriving DecidableEq, Repr

/-- The `InputsUpstream` view that `CellFilteringState` reads in the reduced
pipeline: a single RNA matrix whose identity is the loaded dataset, and no
block factor. -/
def miniInputsUpstream (inputs : InputsStateM) : InputsUpstream :=
  ⟨inputs.changed, [("RNA", inputs.dataset.getD 0)], none⟩

/-- The `qc_states` record the filter reads: the RNA QC state, with the ADT
and CRISPR modalities absent (invalid). -/
def miniQcTriple (qc : QcStateM) : QcTriple :=
  ⟨⟨qc.valid, qc.changed, qc.discards⟩,
   ⟨false, false, ⟨0, [], none⟩⟩,
   ⟨false, false, ⟨0, [], none⟩⟩⟩

/-- Shallow embedding of the `runAnalysis` step sequence from
`src/analysis.js`, over the reduced state: the Inputs step runs first; if
the one-shot `_loaded` marker is present, `inputs.changed` is forced to
`true` and the marker is deleted (lines 200-211); then every step's
`compute` runs in dependency order, the clustering steps receiving `method
== "kmeans"` resp. `method == "snn_graph"` as their toggles (lines
238-251). -/
def runMini (st : MiniState) (datasets : Option Nat) (p : MiniParams) : MiniState :=
  let inputs0 := InputsState.compute st.inputs datasets p.inputs_p
  let inputs1 := if st.load_flag then { inputs0 with changed := true } else inputs0
  let load1 := if st.load_flag then false else st.load_flag
  let qc1 := QualityControlStep.compute st.qc inputs1.changed p.qc_p
  let filter1 := CellFilteringState.compute st.filter (miniInputsUpstream inputs1)
      (miniQcTriple qc1) p.use_rna p.use_adt p.use_crispr
  let norm1 := NormalizationState.compute st.norm qc1.changed filter1.changed
      (filter1.matrix.getD [])
  let pca1 := SimpleStep.compute st.pca norm1.changed p.pca_p
  let embed1 := SimpleStep.compute st.embed pca1.changed p.embed_p
  let kmeans1 := ClusterStep.compute st.kmeans pca1.changed
      (p.method == ClusterMethod.kmeans) p.kmeans_k
  let snn1 := ClusterStep.compute st.snn pca1.changed
      (p.method == ClusterMethod.snn_graph) p.snn_resolution
  let choice1 := ChooseClusteringStep.compute st.choice snn1.changed kmeans1.changed
      p.method
  ⟨load1, inputs1, qc1, filter1, norm1, pca1, embed1, kmeans1, snn1, choice1⟩

/-- The tail of `loadAnalysis` (src/analysis.js lines 487-490): after every
step has been unserialized, the one-shot `_loaded` tripwire for
`runAnalysis` is added to the state. -/
def loadMini (unserialized : MiniState) : MiniState :=
  { unserialized with load_flag := true }

/-! ## Concrete scenario states -/

/-- A `CrisprPcaState` that has computed once (live cached PCs, stored
parameters `num_pcs = 20`, `block_method = "none"`). -/
def crispr_pca_computed_state : CrisprPcaStateM :=
  ⟨⟨some 20, some "none"⟩, some ⟨0, 20, "none", none, true⟩, false⟩

/-- Re-running `compute` on `crispr_pca_computed_state` with the same
parameters after the normalization upstream changed, with the external
`scran.runPCA` call failing. -/
def crispr_pca_failed_run : CrisprPcaStateM × Option StepErr :=
  CrisprPcaState.compute crispr_pca_computed_state ⟨true, true, 1, none⟩ false 20 "none"

/-- A freshly constructed `CellFilteringState` (no stored parameters, empty
cache). -/
def fresh_filter_state : FilterState := ⟨⟨none, none, none⟩, none, none, none, false, 0⟩

/-- A freshly created reduced analysis state, as built by `createAnalysis`:
no step has stored parameters or cached results, and the RNA QC step is
valid with a three-cell discard vector. -/
def fresh_mini_state : MiniState :=
  ⟨false,
   ⟨none, none, false⟩,
   ⟨none, true, ⟨100, [0, 1, 0], none⟩, false⟩,
   fresh_filter_state,
   ⟨none, false⟩,
   ⟨none, none, false⟩,
   ⟨none, none, false⟩,
   ⟨none, none, false⟩,
   ⟨none, none, false⟩,
   ⟨none, false⟩⟩

/-- Parameters for the clustering-switch scenario, first run: clustering
method `"snn_graph"`, all QC modalities in use. -/
def clustering_params_snn : MiniParams :=
  ⟨1, 2, true, true, true, 3, 4, 10, 50, ClusterMethod.snn_graph⟩

/-- The same parameters with only the `choose_clustering` method switched
to `"kmeans"`. -/
def clustering_params_kmeans : MiniParams :=
  { clustering_params_snn with method := ClusterMethod.kmeans }

/-- The k-means parameters with only the SNN resolution changed. -/
def clustering_params_new_resolution : MiniParams :=
  { clustering_params_kmeans with snn_resolution := 77 }

/-- First run of the clustering-switch scenario (SNN graph active). -/
def clustering_run1 : MiniState :=
  runMini fresh_mini_state (some 7) clustering_params_snn

/-- Second run: only the clustering method switched to k-means. -/
def clustering_run2 : MiniState :=
  runMini clustering_run1 (some 7) clustering_params_kmeans

/-- Third run: only the SNN resolution changed (active method k-means). -/
def clustering_run3 : MiniState :=
  runMini clustering_run2 (some 7) clustering_params_new_resolution

/-- All steps of the reduced pipeline report `changed = true`. -/
def all_steps_changed (s : MiniState) : Bool :=
  s.inputs.changed && s.qc.changed && s.filter.changed && s.norm.changed &&
    s.pca.changed && s.embed.changed && s.kmeans.changed && s.snn.changed &&
    s.choice.changed

/-- All steps of the reduced pipeline report `changed = false`. -/
def all_steps_unchanged (s : MiniState) : Bool :=
  !s.inputs.changed && !s.qc.changed && !s.filter.changed && !s.norm.changed &&
    !s.pca.changed && !s.embed.changed && !s.kmeans.changed && !s.snn.changed &&
    !s.choice.changed

/-- The parameter records every step stores after a successful run with
parameters `p`, together with the presence of the active clustering result
(what a subsequent run's change detection compares against). -/
def params_current (s : MiniState) (p : MiniParams) : Prop :=
  s.inputs.params = some p.inputs_p ∧
  s.qc.params = some p.qc_p ∧
  s.filter.params = ⟨some p.use_rna, some p.use_adt, some p.use_crispr⟩ ∧
  s.pca.params = some p.pca_p ∧
  s.embed.params = some p.embed_p ∧
  s.kmeans.params = some p.kmeans_k ∧
  s.snn.params = some p.snn_resolution ∧
  s.choice.method = some p.method ∧
  (p.method = ClusterMethod.kmeans → s.kmeans.clusters.isSome = true) ∧
  (p.method = ClusterMethod.snn_graph → s.snn.clusters.isSome = true)

/-! ## Helper lemmas -/

theorem nat_or_eq_zero_iff (m n : Nat) : m ||| n = 0 ↔ m = 0 ∧ n = 0 := by
  constructor
  · intro h
    refine ⟨Nat.eq_of_testBit_eq fun i => ?_, Nat.eq_of_testBit_eq fun i => ?_⟩ <;>
      · have := congrArg (Nat.testBit · i) h
        simp only [Nat.testBit_or, Nat.zero_testBit, Bool.or_eq_false_iff] at this
        simp [this]
  · rintro ⟨rfl, rfl⟩; rfl

theorem foldl_lor_eq_zero_iff {α : Type} (g : α → Nat) (l : List α) (acc : Nat) :
    (l.foldl (fun a u => a ||| g u) acc = 0) ↔ acc = 0 ∧ ∀ u ∈ l, g u = 0 := by
  induction l generalizing acc with
  | nil => simp
  | cons x xs ih =>
    simp only [List.foldl_cons, ih, nat_or_eq_zero_iff, List.mem_cons]
    constructor
    · rintro ⟨⟨h1, h2⟩, h3⟩
      exact ⟨h1, fun u hu => hu.elim (fun h => h ▸ h2) (h3 u)⟩
    · rintro ⟨h1, h2⟩
      exact ⟨⟨h1, h2 x (Or.inl rfl)⟩, fun u hu => h2 u (Or.inr hu)⟩

theorem merged_discards_getD (l : List QcUpstream) (n i : Nat) (hi : i < n) :
    (merged_discards l n).getD i 0 =
      l.foldl (fun a u => a ||| u.discards.data.getD i 0) 0 := by
  unfold merged_discards
  rw [List.getD_eq_getElem?_getD, List.getElem?_map, List.getElem?_range hi]
  rfl

theorem merged_discards_getD_ne_zero (l : List QcUpstream) (n i : Nat) (hi : i < n) :
    ((merged_discards l n).getD i 0 ≠ 0) ↔
      ∃ u ∈ l, u.discards.data.getD i 0 ≠ 0 := by
  rw [merged_discards_getD l n i hi]
  rw [ne_eq, foldl_lor_eq_zero_iff]
  simp

theorem find_usable_eq_in_use (qc : QcTriple) (u : UseFlags)
    (hr : u.use_rna = true → qc.rna.valid = true)
    (ha : u.use_adt = true → qc.adt.valid = true)
    (hc : u.use_crispr = true → qc.crispr.valid = true) :
    find_usable_upstream_states qc u = in_use_states qc u := by
  unfold find_usable_upstream_states in_use_states
  cases hur : u.use_rna <;> cases hua : u.use_adt <;> cases huc : u.use_crispr <;>
    simp_all

theorem filter_compute_changed (st : FilterState) (inputs : InputsUpstream) (qc : QcTriple)
    (ur ua uc : Bool) :
    (CellFilteringState.compute st inputs qc ur ua uc).changed
      = filter_changed_now st inputs qc ur ua uc := by
  unfold CellFilteringState.compute
  dsimp only
  split
  · next h => split <;> (try split) <;> simp_all
  · next h => simp_all

theorem filter_compute_params (st : FilterState) (inputs : InputsUpstream) (qc : QcTriple)
    (ur ua uc : Bool) :
    (CellFilteringState.compute st inputs qc ur ua uc).params = ⟨some ur, some ua, some uc⟩ := by
  have hp : (if filter_params_differ st ur ua uc then
      (⟨some ur, some ua, some uc⟩ : FilterParams) else st.params) = ⟨some ur, some ua, some uc⟩ := by
    unfold filter_params_differ
    split
    · rfl
    · next h =>
      simp only [Bool.or_eq_true, bne_iff_ne, ne_eq, not_or, not_not] at h
      have h1 := h.1.1
      have h2 := h.1.2
      have h3 := h.2
      calc st.params = ⟨st.params.use_rna, st.params.use_adt, st.params.use_crispr⟩ := rfl
        _ = ⟨some ur, some ua, some uc⟩ := by rw [h1, h2, h3]
  unfold CellFilteringState.compute
  dsimp only
  split
  · split
    · exact hp
    · split <;> exact hp
  · exact hp

theorem filter_compute_discard_nil (st : FilterState) (inputs : InputsUpstream) (qc : QcTriple)
    (ur ua uc : Bool)
    (hch : filter_changed_now st inputs qc ur ua uc = true)
    (hu : find_usable_upstream_states qc ⟨ur, ua, uc⟩ = []) :
    (CellFilteringState.compute st inputs qc ur ua uc).discard_buffer = none := by
  unfold CellFilteringState.compute
  dsimp only
  split
  · split <;> simp_all
  · simp_all

theorem filter_compute_discard_single (st : FilterState) (inputs : InputsUpstream)
    (qc : QcTriple) (ur ua uc : Bool) (u : QcUpstream)
    (hch : filter_changed_now st inputs qc ur ua uc = true)
    (hu : find_usable_upstream_states qc ⟨ur, ua, uc⟩ = [u]) :
    (CellFilteringState.compute st inputs qc ur ua uc).discard_buffer
      = some u.discards.view := by
  unfold CellFilteringState.compute
  dsimp only
  split
  · split
    · simp_all
    · next first rest heq =>
      rw [hu] at heq
      obtain ⟨rfl, rfl⟩ : first = u ∧ rest = [] := by
        cases heq; exact ⟨rfl, rfl⟩
      simp
  · simp_all

theorem filter_compute_discard_multi (st : FilterState) (inputs : InputsUpstream)
    (qc : QcTriple) (ur ua uc : Bool) (first : QcUpstream) (rest : List QcUpstream)
    (hch : filter_changed_now st inputs qc ur ua uc = true)
    (hu : find_usable_upstream_states qc ⟨ur, ua, uc⟩ = first :: rest)
    (hrest : rest ≠ []) :
    (CellFilteringState.compute st inputs qc ur ua uc).discard_buffer
      = some ⟨st.next_id, merged_discards (first :: rest) first.discards.data.length, none⟩ := by
  unfold CellFilteringState.compute
  dsimp only
  split
  · split
    · simp_all
    · next f r heq =>
      rw [hu] at heq
      injection heq with hf hr
      subst hf
      subst hr
      have hlen : 0 < rest.length := List.length_pos.mpr hrest
      simp [hlen]
  · simp_all

/-- Any non-empty array makes `dump_internal` read the undeclared `v`. -/
theorem dump_internal_varr_ne_nil (l : List JsVal) (h : l ≠ []) :
    dump_internal (.varr l) = .error .refV := by
  rw [dump_internal]
  have hne : l.isEmpty = false := by
    cases l with
    | nil => exact absurd rfl h
    | cons a as => rfl
  rw [hne]
  simp only [Bool.false_eq_true, if_false]
  split
  · rfl
  · split <;> rfl

/-- C8: at the failing input — a single feature-type group covering the rows
`0, 1, 2` of a three-row matrix in order, i.e. an identity partition — the
`skip_subset` check is `false` and the splitting branch (a row-subsetting
copy) is taken, because the call site passes the group's *key string*
(`type_keys[0]`) instead of its index array; on the index array itself, the
check the helper was written for returns `true` (rename, no copy). -/
theorem C8_skip_subset_never_fires :
    splitScran_skip_subset ["Gene Expression"] 3 = false ∧
    splitScran_takes_split_branch ["Gene Expression"] 3 = true ∧
    is_subset_noop (.ints [0, 1, 2]) 3 = true := by decide

/-- C10: for every non-empty array whose elements are all strings, and for
every non-empty array none of whose elements is a string (so the
all-booleans flag remains set), `dump_internal` — and hence `dumpList` —
throws the `ReferenceError` arising from the undeclared variable `v`
instead of returning a serialized list; and the fallback branch for
unsupported values (`undefined`, `null`) itself throws the `ReferenceError`
arising from the undeclared variable `k` in its message. -/
theorem C10_dump_list_fast_paths_throw :
    (∀ l : List JsVal, l ≠ [] → (∀ e ∈ l, e.isStr = true) →
      dump_internal (.varr l) = .error .refV ∧
      ∀ p, dumpList (.varr l) p = .error .refV) ∧
    (∀ l : List JsVal, l ≠ [] → (∀ e ∈ l, e.isStr = false) →
      dump_internal (.varr l) = .error .refV ∧
      ∀ p, dumpList (.varr l) p = .error .refV) ∧
    dump_internal .vundefined = .error .refK ∧
    dump_internal .vnull = .error .refK := by
  refine ⟨fun l h _ => ⟨dump_internal_varr_ne_nil l h, fun p => ?_⟩,
    fun l h _ => ⟨dump_internal_varr_ne_nil l h, fun p => ?_⟩, ?_, ?_⟩ <;>
    first
      | (rw [dumpList, dump_internal_varr_ne_nil l h])
      | rw [dump_internal]

/-- Witness for C10 at concrete inputs. -/
theorem C10_witness :
    dump_internal (.varr [.vstr "a", .vstr "b"]) = .error .refV ∧
    dumpList (.varr [.vstr "a", .vstr "b"]) (some "x") = .error .refV ∧
    dump_internal (.varr [.vbool true, .vnull, .vnum 3]) = .error .refV ∧
    dump_internal .vundefined = .error .refK :=
  ⟨(C10_dump_list_fast_paths_throw.1 [.vstr "a", .vstr "b"] (by simp) (by decide)).1,
   (C10_dump_list_fast_paths_throw.1 [.vstr "a", .vstr "b"] (by simp) (by decide)).2 (some "x"),
   (C10_dump_list_fast_paths_throw.2.1 [.vbool true, .vnull, .vnum 3] (by simp) (by decide)).1,
   C10_dump_list_fast_paths_throw.2.2.1⟩

/-- C1 counterexample: a `CrisprPcaState` whose previous call stored
`num_pcs = 20` is recomputed with `num_pcs = 30` while its normalization
upstream is invalid (`valid()` false, e.g. no CRISPR modality in the
dataset): a parameter differs from the stored record, yet `changed` is
`false` after the call, contradicting the claimed "iff". -/
theorem C1_counterexample :
    (CrisprPcaState.compute ⟨⟨some 20, some "none"⟩, none, false⟩
        ⟨false, false, 0, none⟩ true 30 "none").1.changed = false ∧
    (⟨some 20, some "none"⟩ : CrisprPcaParams).num_pcs ≠ some 30 := by decide

/-- C1 (amended): `changed` is recomputed from scratch on every `compute`
call — the right-hand sides below do not depend on the previous `changed`
value — and: for `CrisprPcaState` it is `true` iff the step's normalization
upstream is *valid* AND (that upstream changed, or a parameter differs by
value from the stored record, or the step has never computed — absent
stored fields compare unequal); for `CellFilteringState` it is `true` iff
the inputs changed, or a parameter differs, or some *usable* (in-use and
valid) QC upstream changed. -/
theorem C1_changed_flag_amended (stp : CrisprPcaStateM) (up : CrisprPcaUpstream)
    (n : Nat) (bm : String) (stf : FilterState) (inputs : InputsUpstream)
    (qc : QcTriple) (ur ua uc : Bool) :
    (CrisprPcaState.compute stp up true n bm).1.changed
        = (up.norm_valid &&
            (up.norm_changed || stp.params.num_pcs != some n ||
              stp.params.block_method != some bm)) ∧
    (CellFilteringState.compute stf inputs qc ur ua uc).changed
        = (inputs.changed || filter_params_differ stf ur ua uc ||
            (find_usable_upstream_states qc ⟨ur, ua, uc⟩).any (·.changed)) := by
  constructor
  · unfold CrisprPcaState.compute
    dsimp only
    split
    · next h => split <;> simp_all
    · next h => simp_all
  · rw [filter_compute_changed]
    unfold filter_changed_now
    split <;> simp_all

/-- C3 counterexample: a `CrisprPcaState` holding live cached PCs is
recomputed after an upstream change, and the external `scran.runPCA` call
throws.  The error propagates, but the previously cached result is *not*
left intact: `utils.freeCache` already released it before `runPCA` ran, so
the cache now references a freed object. -/
theorem C3_counterexample :
    crispr_pca_failed_run.2 = some StepErr.runPCAFailed ∧
    crispr_pca_failed_run.1.pcs ≠ crispr_pca_computed_state.pcs ∧
    crispr_pca_failed_run.1.pcs = some ⟨0, 20, "none", none, false⟩ := by decide

/-- C3 (amended): when a recompute is triggered and the step is valid, a
failing external call propagates its error to the caller, but the cache is
*not* left intact: the previously cached result is freed before the new
computation runs (so on failure the cache references a freed object and the
parameter record is not updated); on success the cache is replaced
wholesale.  For the filtered-matrix computation, the old matrix is freed
and replaced by an empty container before the per-modality loop, so a
failure at the `k`-th modality leaves a partially filled replacement
holding exactly the modalities processed before the failure. -/
theorem C3_failure_frees_cache_first (st : CrisprPcaStateM) (up : CrisprPcaUpstream)
    (n : Nat) (bm : String)
    (htrig : (up.norm_changed || st.params.num_pcs != some n ||
        st.params.block_method != some bm) = true)
    (hvalid : up.norm_valid = true) :
    (CrisprPcaState.compute st up false n bm
        = ({ st with
              changed := false,
              pcs := st.pcs.map fun b => { b with alive := false } },
            some StepErr.runPCAFailed)) ∧
    (CrisprPcaState.compute st up true n bm).1.pcs
        = some ⟨up.norm_mat_version, n, bm, up.filtered_block, true⟩ ∧
    (∀ (inputs : InputsUpstream) (disc : Option WBuf) (k : Nat),
        k < inputs.matrices.length →
        raw_compute_matrix_fallible inputs disc (some k)
          = ((raw_compute_matrix inputs disc).take k, some StepErr.filterCellsFailed)) := by
  refine ⟨?_, ?_, ?_⟩
  · unfold CrisprPcaState.compute
    dsimp only
    rw [htrig, hvalid]
    simp
  · unfold CrisprPcaState.compute
    dsimp only
    rw [htrig, hvalid]
    simp
  · intro inputs disc k hk
    unfold raw_compute_matrix_fallible
    simp [hk]

/-- Witness for C3's amended theorem at a concrete input. -/
theorem C3_witness :
    ((⟨true, true, 1, none⟩ : CrisprPcaUpstream).norm_changed ||
        crispr_pca_computed_state.params.num_pcs != some 20 ||
        crispr_pca_computed_state.params.block_method != some "none") = true ∧
    (⟨true, true, 1, none⟩ : CrisprPcaUpstream).norm_valid = true ∧
    (CrisprPcaState.compute crispr_pca_computed_state ⟨true, true, 1, none⟩ false 20 "none"
      = ({ crispr_pca_computed_state with
            changed := false,
            pcs := crispr_pca_computed_state.pcs.map fun b => { b with alive := false } },
          some StepErr.runPCAFailed)) :=
  ⟨by decide, by decide,
    (C3_failure_frees_cache_first crispr_pca_computed_state ⟨true, true, 1, none⟩ 20 "none"
      (by decide) (by decide)).1⟩

/-- C6: a second `compute` call with parameters identical to the stored
record and no upstream change is a no-op: `changed` is set to `false`, the
call returns at once, and the state — in particular every cached buffer —
is left structurally identical (the same objects).  Shown for
`CrisprPcaState` (whose guard reads the normalization upstream's flag; the
filtering upstream is not consulted, so the claim's hypothesis holds a
fortiori) and for `CellLabellingState` (whose guard reads the inputs and
marker-detection flags and deep-compares both reference lists). -/
theorem C6_noop_compute_idempotent (stp : CrisprPcaStateM) (up : CrisprPcaUpstream)
    (n : Nat) (bm : String)
    (hnorm : up.norm_changed = false)
    (hp1 : stp.params.num_pcs = some n)
    (hp2 : stp.params.block_method = some bm)
    (stl : CellLabellingStateM) (fv : Nat) (hrefs mrefs : List String)
    (hl1 : stl.params.human_references = some hrefs)
    (hl2 : stl.params.mouse_references = some mrefs) :
    CrisprPcaState.compute stp up true n bm = ({ stp with changed := false }, none) ∧
    CellLabellingState.compute stl false false fv hrefs mrefs
      = { stl with changed := false } := by
  constructor
  · unfold CrisprPcaState.compute
    dsimp only
    rw [hnorm, hp1, hp2]
    simp
  · unfold CellLabellingState.compute compare_arrays
    rw [hl1, hl2]
    simp

/-- Witness for C6 at concrete inputs. -/
theorem C6_witness :
    CrisprPcaState.compute crispr_pca_computed_state ⟨false, true, 1, none⟩ true 20 "none"
      = ({ crispr_pca_computed_state with changed := false }, none) ∧
    CellLabellingState.compute ⟨⟨some ["BlueprintEncode"], some []⟩, some ⟨5, ["BlueprintEncode"], []⟩, true⟩
        false false 5 ["BlueprintEncode"] []
      = { (⟨⟨some ["BlueprintEncode"], some []⟩, some ⟨5, ["BlueprintEncode"], []⟩, true⟩ : CellLabellingStateM)
          with changed := false } :=
  C6_noop_compute_idempotent crispr_pca_computed_state ⟨false, true, 1, none⟩ 20 "none"
    rfl rfl rfl ⟨⟨some ["BlueprintEncode"], some []⟩, some ⟨5, ["BlueprintEncode"], []⟩, true⟩ 5
    ["BlueprintEncode"] [] rfl rfl

/-- C2: after a `CellFilteringState.compute` call that recomputes, and with
every in-use modality valid (so the usable states are exactly the in-use
ones) and every in-use discard vector of length `ncells`: the combined
discard vector marks cell `i` iff some in-use modality's QC discard vector
marks cell `i`; and when exactly one modality is in use, the combined
vector is that modality's vector aliased as a non-owning view (same
payload, `owner` pointing at the owning buffer) rather than a copy. -/
theorem C2_discard_merge_correct (st : FilterState) (inputs : InputsUpstream)
    (qc : QcTriple) (ur ua uc : Bool) (ncells : Nat)
    (hvr : ur = true → qc.rna.valid = true)
    (hva : ua = true → qc.adt.valid = true)
    (hvc : uc = true → qc.crispr.valid = true)
    (hlen : ∀ u ∈ in_use_states qc ⟨ur, ua, uc⟩, u.discards.data.length = ncells)
    (hch : (CellFilteringState.compute st inputs qc ur ua uc).changed = true)
    (hne : in_use_states qc ⟨ur, ua, uc⟩ ≠ []) :
    (∃ d, (CellFilteringState.compute st inputs qc ur ua uc).discard_buffer = some d ∧
        ∀ i < ncells,
          ((d.data.getD i 0 ≠ 0) ↔
            ∃ u ∈ in_use_states qc ⟨ur, ua, uc⟩, u.discards.data.getD i 0 ≠ 0)) ∧
    (∀ u, in_use_states qc ⟨ur, ua, uc⟩ = [u] →
        (CellFilteringState.compute st inputs qc ur ua uc).discard_buffer
            = some u.discards.view ∧
          u.discards.view.owner = some u.discards.id ∧
          u.discards.view.data = u.discards.data) := by
  have heq := find_usable_eq_in_use qc ⟨ur, ua, uc⟩ hvr hva hvc
  have hch' : filter_changed_now st inputs qc ur ua uc = true := by
    rw [← filter_compute_changed st inputs qc ur ua uc]; exact hch
  constructor
  · rcases hl : in_use_states qc ⟨ur, ua, uc⟩ with _ | ⟨first, rest⟩
    · exact absurd hl hne
    · rcases rest with _ | ⟨second, rest2⟩
      · have hd := filter_compute_discard_single st inputs qc ur ua uc first hch'
          (heq.trans hl)
        refine ⟨first.discards.view, hd, fun i _ => ?_⟩
        simp [WBuf.view]
      · have hd := filter_compute_discard_multi st inputs qc ur ua uc first
          (second :: rest2) hch' (heq.trans hl) (by simp)
        refine ⟨_, hd, fun i hi => ?_⟩
        have hn : first.discards.data.length = ncells :=
          hlen first (by rw [hl]; exact List.mem_cons_self first _)
        exact merged_discards_getD_ne_zero (first :: second :: rest2)
          first.discards.data.length i (by omega)
  · intro u hu
    have hd := filter_compute_discard_single st inputs qc ur ua uc u hch'
      (heq.trans hu)
    exact ⟨hd, rfl, rfl⟩

/-- Witness for C2 at a concrete input: RNA and ADT in use and valid with
three-cell discard vectors, CRISPR off; the merged vector ORs them; and a
second instantiation with only RNA in use yields the view. -/
theorem C2_witness :
    (∃ d, (CellFilteringState.compute fresh_filter_state ⟨false, [("RNA", 0)], none⟩
        ⟨⟨true, false, ⟨1, [1, 0, 0], none⟩⟩, ⟨true, false, ⟨2, [0, 0, 1], none⟩⟩,
         ⟨false, false, ⟨3, [], none⟩⟩⟩ true true false).discard_buffer = some d ∧
      ∀ i < 3,
        ((d.data.getD i 0 ≠ 0) ↔
          ∃ u ∈ in_use_states
              ⟨⟨true, false, ⟨1, [1, 0, 0], none⟩⟩, ⟨true, false, ⟨2, [0, 0, 1], none⟩⟩,
               ⟨false, false, ⟨3, [], none⟩⟩⟩ ⟨true, true, false⟩,
            u.discards.data.getD i 0 ≠ 0)) ∧
    ((CellFilteringState.compute fresh_filter_state ⟨false, [("RNA", 0)], none⟩
        ⟨⟨true, false, ⟨1, [1, 0, 0], none⟩⟩, ⟨true, false, ⟨2, [0, 0, 1], none⟩⟩,
         ⟨false, false, ⟨3, [], none⟩⟩⟩ true false false).discard_buffer
      = some (WBuf.view ⟨1, [1, 0, 0], none⟩)) :=
  ⟨(C2_discard_merge_correct fresh_filter_state ⟨false, [("RNA", 0)], none⟩
      ⟨⟨true, false, ⟨1, [1, 0, 0], none⟩⟩, ⟨true, false, ⟨2, [0, 0, 1], none⟩⟩,
       ⟨false, false, ⟨3, [], none⟩⟩⟩ true true false 3
      (by decide) (by decide) (by decide) (by decide) (by decide) (by decide)).1,
   ((C2_discard_merge_correct fresh_filter_state ⟨false, [("RNA", 0)], none⟩
      ⟨⟨true, false, ⟨1, [1, 0, 0], none⟩⟩, ⟨true, false, ⟨2, [0, 0, 1], none⟩⟩,
       ⟨false, false, ⟨3, [], none⟩⟩⟩ true false false 3
      (by decide) (by decide) (by decide) (by decide) (by decide) (by decide)).2
      ⟨true, false, ⟨1, [1, 0, 0], none⟩⟩ (by decide)).1⟩

/-- C7: when zero modalities are usable for filtering, a recomputing
`compute` call leaves the combined discard vector *absent* (no
`discard_buffer` cache entry) rather than storing an all-false vector; and
`serialize` writes a `discards` dataset into the results group iff a
combined discard vector is present *and* is an owned buffer, not a view
aliasing a single modality's vector. -/
theorem C7_absent_discard_serialize (st : FilterState) (inputs : InputsUpstream)
    (qc : QcTriple) (ur ua uc : Bool)
    (hch : (CellFilteringState.compute st inputs qc ur ua uc).changed = true)
    (hnone : find_usable_upstream_states qc ⟨ur, ua, uc⟩ = []) :
    (CellFilteringState.compute st inputs qc ur ua uc).discard_buffer = none ∧
    (∀ s : FilterState,
        (CellFilteringState.serialize_discards s).isSome = true ↔
          ∃ d, s.discard_buffer = some d ∧ d.owner = none) := by
  constructor
  · exact filter_compute_discard_nil st inputs qc ur ua uc
      (by rw [← filter_compute_changed st inputs qc ur ua uc]; exact hch) hnone
  · intro s
    unfold CellFilteringState.serialize_discards
    cases hd : s.discard_buffer with
    | none => simp
    | some d =>
      split <;> simp_all

/-- Witness for C7 at a concrete input: all three use flags off. -/
theorem C7_witness :
    (CellFilteringState.compute fresh_filter_state ⟨false, [("RNA", 0)], none⟩
        ⟨⟨true, false, ⟨1, [1, 0, 0], none⟩⟩, ⟨true, false, ⟨2, [0, 0, 1], none⟩⟩,
         ⟨false, false, ⟨3, [], none⟩⟩⟩ false false false).discard_buffer = none ∧
    (CellFilteringState.serialize_discards
        ⟨⟨some true, some true, some true⟩, some ⟨9, [1, 0], none⟩, none, none, true, 10⟩).isSome
      = true :=
  ⟨(C7_absent_discard_serialize fresh_filter_state ⟨false, [("RNA", 0)], none⟩
      ⟨⟨true, false, ⟨1, [1, 0, 0], none⟩⟩, ⟨true, false, ⟨2, [0, 0, 1], none⟩⟩,
       ⟨false, false, ⟨3, [], none⟩⟩⟩ false false false (by decide) (by decide)).1,
   ((C7_absent_discard_serialize fresh_filter_state ⟨false, [("RNA", 0)], none⟩
      ⟨⟨true, false, ⟨1, [1, 0, 0], none⟩⟩, ⟨true, false, ⟨2, [0, 0, 1], none⟩⟩,
       ⟨false, false, ⟨3, [], none⟩⟩⟩ false false false (by decide) (by decide)).2
      ⟨⟨some true, some true, some true⟩, some ⟨9, [1, 0], none⟩, none, none, true, 10⟩).mpr
      ⟨⟨9, [1, 0], none⟩, rfl, rfl⟩⟩

/-- The sliced statistics read the underlying per-gene statistic of the
universe entry at each position. -/
theorem curstats_getD (univ : List Nat) (stats : List Rat) (i : Nat)
    (hi : i < univ.length) :
    (univ.map fun g => stats.getD g 0).getD i 0 = stats.getD (univ.getD i 0) 0 := by
  have h1 : univ[i]? = some univ[i] := List.getElem?_eq_getElem hi
  rw [List.getD_eq_getElem?_getD, List.getElem?_map, h1,
    List.getD_eq_getElem?_getD univ, h1]
  rfl

/-- Membership characterization of the select-then-map pattern used by
`computeEnrichment`. -/
theorem select_map_mem (univ : List Nat) (stats : List Rat) (p : Rat → Bool)
    (g : Nat) :
    (g ∈ (((List.range (univ.map fun x => stats.getD x 0).length).filter fun i =>
        p ((univ.map fun x => stats.getD x 0).getD i 0)).map fun i => univ.getD i 0)) ↔
      g ∈ univ ∧ p (stats.getD g 0) = true := by
  simp only [List.mem_map, List.mem_filter, List.mem_range, List.length_map]
  constructor
  · rintro ⟨i, ⟨hi, hp⟩, rfl⟩
    rw [curstats_getD univ stats i hi] at hp
    have hmem : univ.getD i 0 ∈ univ := by
      rw [List.getD_eq_getElem?_getD, List.getElem?_eq_getElem hi]
      exact List.getElem_mem hi
    exact ⟨hmem, hp⟩
  · rintro ⟨hg, hp⟩
    obtain ⟨i, hi, hgi⟩ := List.mem_iff_getElem.mp hg
    have hgd : univ.getD i 0 = g := by
      rw [List.getD_eq_getElem?_getD, List.getElem?_eq_getElem hi]
      exact hgi
    refine ⟨i, ⟨hi, ?_⟩, hgd⟩
    rw [curstats_getD univ stats i hi, hgd]
    exact hp

/-- C9 counterexample: effect size `"cohen"`, one universe gene with
statistic `-1`, `top_markers` covering it, so the external top-threshold is
`-1`.  The claim's selection rule (`stat ≥ threshold`, flooring only for
`"auc"`) selects the gene, but the code floors the threshold at `0` for
every non-`min_rank` effect size and selects nothing. -/
theorem C9_counterexample :
    computeEnrichment_marker_genes "cohen" (-1 : Rat) [(-1 : Rat)] [0] = [] ∧
    ((spec_selected_literal "cohen" (-1 : Rat) [(-1 : Rat)] [0]).map fun i =>
        ([0] : List Nat).getD i 0) = [0] := by
  constructor <;> rfl

/-- C9 (amended): top markers are selected over the mapped universe; for
`"min_rank"` smaller is better and genes with statistic `≤` the top-K
threshold are selected; for every other effect size larger is better and
genes with statistic `≥` the threshold are selected, the threshold being
floored at a minimum that is `0.5` when the effect size is `"auc"` and `0`
for every other non-`min_rank` effect size; and the returned per-set
results are sorted in ascending order of enrichment p-value. -/
theorem C9_selection_and_sort (effect : String) (t : Rat) (stats : List Rat)
    (univ : List Nat) (overlaps : List SetOverlap) :
    (effect ≠ "min_rank" →
      ∀ g, g ∈ computeEnrichment_marker_genes effect t stats univ ↔
        g ∈ univ ∧
          max (if normalize_effect effect == "auc" then (1 : Rat)/2 else 0) t
            ≤ stats.getD g 0) ∧
    (∀ g, g ∈ computeEnrichment_marker_genes "min_rank" t stats univ ↔
        g ∈ univ ∧ stats.getD g 0 ≤ t) ∧
    List.Pairwise (fun x y => x.pvalue ≤ y.pvalue) (sort_overlaps overlaps) ∧
    (sort_overlaps overlaps).Perm overlaps := by
  refine ⟨?_, ?_, ?_, ?_⟩
  · intro heff g
    unfold computeEnrichment_marker_genes computeEnrichment_selected
    have hlargest : (normalize_effect effect != "min_rank") = true := by
      unfold normalize_effect
      split
      · rfl
      · simpa [bne_iff_ne] using heff
    dsimp only
    rw [hlargest]
    simp only [if_true]
    rw [select_map_mem univ stats
      (fun x => decide ((if t < (if normalize_effect effect == "auc"
          then (1 : Rat)/2 else 0) then (if normalize_effect effect == "auc"
          then (1 : Rat)/2 else 0) else t) ≤ x)) g]
    have hmax : (if t < (if normalize_effect effect == "auc" then (1 : Rat)/2 else 0)
        then (if normalize_effect effect == "auc" then (1 : Rat)/2 else 0) else t)
        = max (if normalize_effect effect == "auc" then (1 : Rat)/2 else 0) t := by
      rcases lt_or_le t (if normalize_effect effect == "auc" then (1 : Rat)/2 else 0) with h | h
      · rw [if_pos h, max_eq_left (le_of_lt h)]
      · rw [if_neg (not_lt.mpr h), max_eq_right h]
    rw [hmax]
    simp [decide_eq_true_iff]
  · intro g
    unfold computeEnrichment_marker_genes computeEnrichment_selected
    have : (normalize_effect "min_rank" != "min_rank") = false := by rfl
    dsimp only
    rw [this]
    simp only [Bool.false_eq_true, if_false]
    rw [select_map_mem univ stats (fun x => decide (x ≤ t)) g]
    simp [decide_eq_true_iff]
  · have := @List.sorted_mergeSort SetOverlap
      (fun a b : SetOverlap => decide (a.pvalue ≤ b.pvalue))
      (fun a b c h1 h2 => by
        simp only [decide_eq_true_iff] at h1 h2 ⊢
        exact le_trans h1 h2)
      (fun a b => by
        simpa [decide_eq_true_iff] using le_total a.pvalue b.pvalue)
      overlaps
    exact this.imp (by simp)
  · exact List.mergeSort_perm overlaps _

/-- Witness for C9's amended theorem at a concrete input. -/
theorem C9_witness :
    ("cohen" ≠ "min_rank") ∧
    (∀ g, g ∈ computeEnrichment_marker_genes "cohen" 2 [3, 1] [0, 1] ↔
      g ∈ [0, 1] ∧
        max (if normalize_effect "cohen" == "auc" then (1 : Rat)/2 else 0) 2
          ≤ [(3 : Rat), 1].getD g 0) :=
  ⟨by decide,
    (C9_selection_and_sort "cohen" 2 [(3 : Rat), 1] [0, 1] []).1 (by decide)⟩

theorem inputs_compute_changed_none (st : InputsStateM) (p : Nat) :
    (InputsState.compute st none p).changed = (st.params != some p) := rfl

theorem inputs_compute_params (st : InputsStateM) (ds : Option Nat) (p : Nat) :
    (InputsState.compute st ds p).params = some p := rfl

theorem qc_compute_changed (st : QcStateM) (b : Bool) (p : Nat) :
    (QualityControlStep.compute st b p).changed = (b || st.params != some p) := by
  unfold QualityControlStep.compute
  split <;> simp_all

theorem qc_compute_params (st : QcStateM) (b : Bool) (p : Nat) :
    (QualityControlStep.compute st b p).params = some p := by
  unfold QualityControlStep.compute
  split
  · rfl
  · next h =>
    simp only [Bool.or_eq_true, not_or, bne_iff_ne, ne_eq, not_not] at h
    exact h.2

theorem qc_compute_valid (st : QcStateM) (b : Bool) (p : Nat) :
    (QualityControlStep.compute st b p).valid = st.valid := by
  unfold QualityControlStep.compute
  split <;> rfl

theorem simple_compute_changed (st : SimpleStepM) (b : Bool) (p : Nat) :
    (SimpleStep.compute st b p).changed = (b || st.params != some p) := by
  unfold SimpleStep.compute
  split <;> simp_all

theorem simple_compute_params (st : SimpleStepM) (b : Bool) (p : Nat) :
    (SimpleStep.compute st b p).params = some p := by
  unfold SimpleStep.compute
  split
  · rfl
  · next h =>
    simp only [Bool.or_eq_true, not_or, bne_iff_ne, ne_eq, not_not] at h
    exact h.2

theorem cluster_compute_changed (st : ClusterStateM) (b rm : Bool) (p : Nat) :
    (ClusterStep.compute st b rm p).changed
      = (b || st.params != some p || (rm && st.clusters.isNone)) := by
  unfold ClusterStep.compute
  split <;> simp_all [Option.isSome_iff_ne_none]

theorem cluster_compute_params (st : ClusterStateM) (b rm : Bool) (p : Nat) :
    (ClusterStep.compute st b rm p).params = some p := by
  unfold ClusterStep.compute
  split
  · rfl
  · next h =>
    simp only [Bool.or_eq_true, not_or, bne_iff_ne, ne_eq, not_not] at h
    exact h.1.2

theorem cluster_compute_clusters_of_trigger (st : ClusterStateM) (b rm : Bool) (p : Nat)
    (h : (b || st.params != some p || (rm && st.clusters.isNone)) = true) :
    (ClusterStep.compute st b rm p).clusters = (if rm then some p else none) := by
  unfold ClusterStep.compute
  rw [if_pos h]

theorem cluster_compute_clusters_noop (st : ClusterStateM) (b rm : Bool) (p : Nat)
    (h : (b || st.params != some p || (rm && st.clusters.isNone)) = false) :
    (ClusterStep.compute st b rm p).clusters = st.clusters := by
  unfold ClusterStep.compute
  rw [if_neg (by simp [h])]

theorem norm_compute_changed (st : NormalizationStateM) (q f : Bool)
    (mats : List FiltMat) :
    (NormalizationState.compute st q f mats).changed = (q || f) := by
  unfold NormalizationState.compute
  dsimp only
  split <;> simp_all

theorem choice_compute_changed (st : ChooseClusteringStateM) (snnc kmc : Bool)
    (meth : ClusterMethod) :
    (ChooseClusteringStep.compute st snnc kmc meth).changed
      = (if st.method == some meth then
          (match meth with
            | ClusterMethod.snn_graph => snnc
            | ClusterMethod.kmeans => kmc)
         else true) := rfl

theorem choice_compute_method (st : ChooseClusteringStateM) (snnc kmc : Bool)
    (meth : ClusterMethod) :
    (ChooseClusteringStep.compute st snnc kmc meth).method = some meth := rfl

theorem filter_changed_now_of_inputs (st : FilterState) (inputs : InputsUpstream)
    (qc : QcTriple) (ur ua uc : Bool) (h : inputs.changed = true) :
    filter_changed_now st inputs qc ur ua uc = true := by
  unfold filter_changed_now
  simp [h]

theorem find_usable_mini_any_changed (q : QcStateM) (u : UseFlags)
    (h : q.changed = false) :
    (find_usable_upstream_states (miniQcTriple q) u).any (·.changed) = false := by
  unfold find_usable_upstream_states miniQcTriple
  dsimp only
  cases hv : q.valid <;> cases hur : u.use_rna <;> simp [h]

/-- On a just-reloaded state, one run forces every step to report `changed`,
removes the tripwire, and leaves every step's stored parameters current. -/
theorem loaded_run_facts (m : MiniState) (p : MiniParams) :
    (runMini (loadMini m) none p).load_flag = false ∧
    all_steps_changed (runMini (loadMini m) none p) = true ∧
    params_current (runMini (loadMini m) none p) p := by
  refine ⟨rfl, ?_, ?_⟩
  · simp [runMini, loadMini, all_steps_changed, miniInputsUpstream,
      qc_compute_changed, simple_compute_changed, cluster_compute_changed,
      norm_compute_changed, choice_compute_changed,
      filter_compute_changed, filter_changed_now_of_inputs]
    cases p.method <;> simp
  · simp [runMini, loadMini, params_current, miniInputsUpstream,
      qc_compute_changed, qc_compute_params, simple_compute_changed,
      simple_compute_params, cluster_compute_changed, cluster_compute_params,
      cluster_compute_clusters_of_trigger, norm_compute_changed,
      choice_compute_method, inputs_compute_params,
      filter_compute_changed, filter_compute_params, filter_changed_now_of_inputs]

/-- A run with `datasets = null` whose parameters all match the stored
records, on a state without the tripwire, reports `changed = false` on
every step. -/
theorem find_usable_mini_mem_changed (q : QcStateM) (u : UseFlags)
    (h : q.changed = false) :
    ∀ x ∈ find_usable_upstream_states (miniQcTriple q) u, x.changed = false := by
  intro x hx
  unfold find_usable_upstream_states miniQcTriple at hx
  dsimp only at hx
  cases hv : q.valid <;> cases hur : u.use_rna <;>
    (simp [hv, hur] at hx; try simp [hx, h])

theorem second_run_unchanged (s : MiniState) (p : MiniParams)
    (h : params_current s p) (hflag : s.load_flag = false) :
    all_steps_unchanged (runMini s none p) = true := by
  obtain ⟨h1, h2, h3, h4, h5, h6, h7, h8, h9, h10⟩ := h
  have hin : (InputsState.compute s.inputs none p.inputs_p).changed = false := by
    rw [inputs_compute_changed_none, h1]; simp
  simp only [runMini, all_steps_unchanged, miniInputsUpstream, hflag,
    inputs_compute_changed_none, qc_compute_changed, simple_compute_changed,
    cluster_compute_changed, norm_compute_changed, choice_compute_changed,
    filter_compute_changed, filter_changed_now, filter_params_differ,
    Bool.if_false_left, Bool.if_true_left]
  simp [h1, h2, h3, h4, h5, h6, h7, h8, hin, qc_compute_changed,
    QualityControlStep.compute]
  have hall := find_usable_mini_mem_changed
    ⟨some p.qc_p, s.qc.valid, s.qc.discards, false⟩
    ⟨p.use_rna, p.use_adt, p.use_crispr⟩ rfl
  have hany := find_usable_mini_any_changed
    ⟨some p.qc_p, s.qc.valid, s.qc.discards, false⟩
    ⟨p.use_rna, p.use_adt, p.use_crispr⟩ rfl
  cases hm : p.method <;> simp_all

/-- C5: every analysis state produced by `loadAnalysis` carries the one-shot
`_loaded` marker; the next `runAnalysis` on that state forces every
downstream step to behave as changed for that run only (every step reports
`changed = true`), and the marker is removed, so subsequent runs use
ordinary change detection (a repeat run with the same parameters reports
`changed = false` on every step). -/
theorem C5_reload_tripwire (m : MiniState) (p : MiniParams) :
    (loadMini m).load_flag = true ∧
    (runMini (loadMini m) none p).load_flag = false ∧
    all_steps_changed (runMini (loadMini m) none p) = true ∧
    all_steps_unchanged (runMini (runMini (loadMini m) none p) none p) = true := by
  obtain ⟨hflag, hch, hpar⟩ := loaded_run_facts m p
  exact ⟨rfl, hflag, hch, second_run_unchanged _ p hpar hflag⟩

/-- C4: running the reduced pipeline with clustering method `"snn_graph"`
yields SNN results and no k-means results; switching only the
`choose_clustering` method to `"kmeans"` and rerunning leaves the PCA and
embedding steps with `changed = false`, computes and retains k-means
results, keeps the SNN results present, and marks `choose_clustering` as
changed; afterwards, changing only the SNN resolution marks SNN — and only
SNN, the active method being k-means — as changed while k-means stays
unchanged with its results intact. -/
theorem C4_clustering_switch :
    (clustering_run1.snn.clusters.isSome = true ∧
      clustering_run1.kmeans.clusters = none) ∧
    (clustering_run2.pca.changed = false ∧ clustering_run2.embed.changed = false ∧
      clustering_run2.kmeans.changed = true ∧
      clustering_run2.kmeans.clusters.isSome = true ∧
      clustering_run2.snn.changed = false ∧
      clustering_run2.snn.clusters.isSome = true ∧
      clustering_run2.choice.changed = true) ∧
    (clustering_run3.snn.changed = true ∧ clustering_run3.kmeans.changed = false ∧
      clustering_run3.choice.changed = false ∧ clustering_run3.pca.changed = false ∧
      clustering_run3.embed.changed = false ∧ clustering_run3.norm.changed = false ∧
      clustering_run3.filter.changed = false ∧ clustering_run3.inputs.changed = false ∧
      clustering_run3.qc.changed = false ∧
      clustering_run3.kmeans.clusters.isSome = true) := by
  decide
